import Mathlib

/-!
Verification of the ownership layer over the CUDA driver API
(source files: src/cuda/result.rs and src/cuda/borrow.rs).

The native driver (the `sys` FFI module) is not part of the two source
files; it is modelled, following the specification, as a deterministic
fake driver that records every native call in a trace, assigns fresh
handles, and keeps a FIFO queue of asynchronously enqueued memory
operations per stream, executed at stream synchronization.  Whether a
native call fails, and with which status code, is determined by a
schedule indexed by the global call counter.
-/

namespace Cudas

/-- Native status code (`sys::CUresult`); `0` is `CUDA_SUCCESS`. -/
abbrev CUresult := Nat

/-- The library error type: a newtype wrapping the raw native status code
(`CudaError(sys::CUresult)` in result.rs). -/
structure CudaError where
  code : CUresult
deriving DecidableEq

/-- Embedding of `CUresult::result` (result.rs lines 11-18): the success
code maps to `Ok(())`, every other code to `Err(CudaError(self))`. -/
def CUresult.result (c : CUresult) : Except CudaError Unit :=
  if c = 0 then Except.ok () else Except.error ⟨c⟩

/-- A recorded native driver call (name and arguments), used to state
ordering properties of composite operations. -/
inductive Call where
  | cuInit
  | cuDeviceGet (ordinal : Int)
  | cuDevicePrimaryCtxRetain (dev : Int)
  | cuDevicePrimaryCtxRelease (dev : Int)
  | cuCtxSetCurrent (ctx : Nat)
  | cuStreamCreate
  | cuStreamSynchronize (stream : Nat)
  | cuStreamDestroy (stream : Nat)
  | cuModuleUnload (module : Nat)
  | cuMemAllocAsync (size stream : Nat)
  | cuMemsetD8Async (ptr byte size stream : Nat)
  | cuMemcpyHtoDAsync (ptr size stream : Nat)
  | cuMemcpyDtoHAsync (host ptr size stream : Nat)
  | cuMemFreeAsync (ptr stream : Nat)
deriving DecidableEq

/-- An asynchronous memory operation enqueued on a stream; its effect on
memory is deferred until the stream is synchronized. -/
inductive StreamOp where
  | allocOp (ptr size : Nat)
  | memsetOp (ptr byte size : Nat)
  | htodOp (ptr : Nat) (bytes : List Nat)
  | dtohOp (host ptr size : Nat)
  | freeOp (ptr : Nat)
deriving DecidableEq

/-- Association-list lookup (keys are handles). -/
def assocGet (m : List (Nat × List Nat)) (k : Nat) : Option (List Nat) :=
  match m with
  | [] => none
  | (a, v) :: rest => if a = k then some v else assocGet rest k

/-- Association-list insert-or-update. -/
def assocSet (m : List (Nat × List Nat)) (k : Nat) (v : List Nat) : List (Nat × List Nat) :=
  match m with
  | [] => [(k, v)]
  | (a, w) :: rest => if a = k then (k, v) :: rest else (a, w) :: assocSet rest k v

/-- Association-list removal. -/
def assocRemove (m : List (Nat × List Nat)) (k : Nat) : List (Nat × List Nat) :=
  match m with
  | [] => []
  | (a, w) :: rest => if a = k then assocRemove rest k else (a, w) :: assocRemove rest k

/-- Device memory (keyed by device pointer) and host memory (keyed by a
host-buffer identifier standing for a `Box` allocation). -/
structure Mem where
  dev : List (Nat × List Nat)
  host : List (Nat × List Nat)
deriving DecidableEq

/-- The byte pattern standing for uninitialized freshly allocated device
memory (the model's stand-in for arbitrary garbage). -/
def junkByte : Nat := 205

/-- Effect of one enqueued stream operation when it retires. -/
def execOp (m : Mem) : StreamOp → Mem
  | StreamOp.allocOp p n => { m with dev := assocSet m.dev p (List.replicate n junkByte) }
  | StreamOp.memsetOp p b n => { m with dev := assocSet m.dev p (List.replicate n b) }
  | StreamOp.htodOp p bs => { m with dev := assocSet m.dev p bs }
  | StreamOp.dtohOp h p n =>
      let bytes := ((assocGet m.dev p).getD (List.replicate n junkByte)).take n
      { m with host := assocSet m.host h bytes }
  | StreamOp.freeOp p => { m with dev := assocRemove m.dev p }

/-- Retire a queue of enqueued operations in FIFO order. -/
def execOps (m : Mem) (ops : List StreamOp) : Mem := ops.foldl execOp m

/-- Modelled from the spec: the state of the native driver (the `sys` FFI
module is not under src/).  `schedule` decides, per global call index,
whether a native call fails and with which nonzero status code (`none`
means success); `trace` records every native call issued; `pending` is
the FIFO queue of the single stream, retired at synchronization. -/
structure Driver where
  schedule : Nat → Option CUresult
  calls : Nat
  trace : List Call
  nextPtr : Nat
  nextHost : Nat
  mem : Mem
  pending : List StreamOp

/-- Status code returned by the next native call. -/
def Driver.code (s : Driver) : CUresult := (s.schedule s.calls).getD 0

/-- Record one native call: bump the call counter and append to the trace. -/
def Driver.record (s : Driver) (c : Call) : Driver :=
  { s with calls := s.calls + 1, trace := s.trace ++ [c] }

/-- Host-side `Box` allocation (Rust heap, not a driver call): registers a
fresh host buffer with the given initial bytes. -/
def Driver.hostAlloc (s : Driver) (bytes : List Nat) : Nat × Driver :=
  (s.nextHost, { s with nextHost := s.nextHost + 1,
                        mem := { s.mem with host := assocSet s.mem.host s.nextHost bytes } })

/-- Modelled from the spec: `sys::cuInit`. -/
def sys.cuInit (s : Driver) : CUresult × Driver :=
  (s.code, s.record Call.cuInit)

/-- Modelled from the spec: `sys::cuDeviceGet`; the device handle is the ordinal. -/
def sys.cuDeviceGet (ordinal : Int) (s : Driver) : CUresult × Int × Driver :=
  (s.code, ordinal, s.record (Call.cuDeviceGet ordinal))

/-- Modelled from the spec: `sys::cuDevicePrimaryCtxRetain`; on success a
fresh nonzero context handle is produced. -/
def sys.cuDevicePrimaryCtxRetain (dev : Int) (s : Driver) : CUresult × Nat × Driver :=
  let s1 := s.record (Call.cuDevicePrimaryCtxRetain dev)
  (s.code,
   if s.code = 0 then (s1.nextPtr, { s1 with nextPtr := s1.nextPtr + 1 }) else (0, s1))

/-- Modelled from the spec: `sys::cuDevicePrimaryCtxRelease_v2`. -/
def sys.cuDevicePrimaryCtxRelease (dev : Int) (s : Driver) : CUresult × Driver :=
  (s.code, s.record (Call.cuDevicePrimaryCtxRelease dev))

/-- Modelled from the spec: `sys::cuCtxSetCurrent`. -/
def sys.cuCtxSetCurrent (ctx : Nat) (s : Driver) : CUresult × Driver :=
  (s.code, s.record (Call.cuCtxSetCurrent ctx))

/-- Modelled from the spec: `sys::cuStreamCreate`; on success a fresh
nonzero stream handle is produced. -/
def sys.cuStreamCreate (s : Driver) : CUresult × Nat × Driver :=
  let s1 := s.record Call.cuStreamCreate
  (s.code,
   if s.code = 0 then (s1.nextPtr, { s1 with nextPtr := s1.nextPtr + 1 }) else (0, s1))

/-- Modelled from the spec: `sys::cuStreamSynchronize`; on success every
pending operation of the queue retires in FIFO order. -/
def sys.cuStreamSynchronize (stream : Nat) (s : Driver) : CUresult × Driver :=
  let s1 := s.record (Call.cuStreamSynchronize stream)
  (s.code,
   if s.code = 0 then { s1 with mem := execOps s1.mem s1.pending, pending := [] } else s1)

/-- Modelled from the spec: `sys::cuStreamDestroy_v2`. -/
def sys.cuStreamDestroy (stream : Nat) (s : Driver) : CUresult × Driver :=
  (s.code, s.record (Call.cuStreamDestroy stream))

/-- Modelled from the spec: `sys::cuModuleUnload`. -/
def sys.cuModuleUnload (m : Nat) (s : Driver) : CUresult × Driver :=
  (s.code, s.record (Call.cuModuleUnload m))

/-- Modelled from the spec: `sys::cuMemAllocAsync`; on success a fresh
device pointer is returned immediately and the allocation is enqueued. -/
def sys.cuMemAllocAsync (size stream : Nat) (s : Driver) : CUresult × Nat × Driver :=
  let s1 := s.record (Call.cuMemAllocAsync size stream)
  (s.code,
   if s.code = 0 then
     (s1.nextPtr,
      { s1 with nextPtr := s1.nextPtr + 1,
                pending := s1.pending ++ [StreamOp.allocOp s1.nextPtr size] })
   else (0, s1))

/-- Modelled from the spec: `sys::cuMemsetD8Async`. -/
def sys.cuMemsetD8Async (ptr byte size stream : Nat) (s : Driver) : CUresult × Driver :=
  let s1 := s.record (Call.cuMemsetD8Async ptr byte size stream)
  (s.code,
   if s.code = 0 then { s1 with pending := s1.pending ++ [StreamOp.memsetOp ptr byte size] }
   else s1)

/-- Modelled from the spec: `sys::cuMemcpyHtoDAsync_v2`; `src` is the byte
image of the host value, of which `size` bytes are copied. -/
def sys.cuMemcpyHtoDAsync (ptr : Nat) (src : List Nat) (size stream : Nat) (s : Driver) :
    CUresult × Driver :=
  let s1 := s.record (Call.cuMemcpyHtoDAsync ptr size stream)
  (s.code,
   if s.code = 0 then { s1 with pending := s1.pending ++ [StreamOp.htodOp ptr (src.take size)] }
   else s1)

/-- Modelled from the spec: `sys::cuMemcpyDtoHAsync_v2`; `host` identifies
the destination host buffer. -/
def sys.cuMemcpyDtoHAsync (host ptr size stream : Nat) (s : Driver) : CUresult × Driver :=
  let s1 := s.record (Call.cuMemcpyDtoHAsync host ptr size stream)
  (s.code,
   if s.code = 0 then { s1 with pending := s1.pending ++ [StreamOp.dtohOp host ptr size] }
   else s1)

/-- Modelled from the spec: `sys::cuMemFreeAsync`. -/
def sys.cuMemFreeAsync (ptr stream : Nat) (s : Driver) : CUresult × Driver :=
  let s1 := s.record (Call.cuMemFreeAsync ptr stream)
  (s.code,
   if s.code = 0 then { s1 with pending := s1.pending ++ [StreamOp.freeOp ptr] } else s1)

/-- The `.result()?` pattern for a native call without an out-parameter:
the status code is converted by the single conversion rule. -/
def translate0 (r : CUresult × Driver) : Except CudaError Unit × Driver :=
  match r with
  | (code, s) =>
    match CUresult.result code with
    | Except.ok _ => (Except.ok (), s)
    | Except.error e => (Except.error e, s)

/-- The `.result()?` pattern for a native call with an out-parameter,
populated only on success. -/
def translate {α : Type} (r : CUresult × α × Driver) : Except CudaError α × Driver :=
  match r with
  | (code, a, s) =>
    match CUresult.result code with
    | Except.ok _ => (Except.ok a, s)
    | Except.error e => (Except.error e, s)

/-- Embedding of `result::init` (result.rs). -/
def result.init (s : Driver) : Except CudaError Unit × Driver :=
  translate0 (sys.cuInit s)

/-- Embedding of `result::device::get` (result.rs). -/
def result.device.get (ordinal : Int) (s : Driver) : Except CudaError Int × Driver :=
  translate (sys.cuDeviceGet ordinal s)

/-- Embedding of `result::device::primary_ctx_retain` (result.rs). -/
def result.device.primary_ctx_retain (dev : Int) (s : Driver) : Except CudaError Nat × Driver :=
  translate (sys.cuDevicePrimaryCtxRetain dev s)

/-- Embedding of `result::device::primary_ctx_release` (result.rs). -/
def result.device.primary_ctx_release (dev : Int) (s : Driver) : Except CudaError Unit × Driver :=
  translate0 (sys.cuDevicePrimaryCtxRelease dev s)

/-- Embedding of `result::ctx::set_current` (result.rs). -/
def result.ctx.set_current (ctx : Nat) (s : Driver) : Except CudaError Unit × Driver :=
  translate0 (sys.cuCtxSetCurrent ctx s)

/-- Embedding of `result::stream::create` (result.rs). -/
def result.stream.create (s : Driver) : Except CudaError Nat × Driver :=
  translate (sys.cuStreamCreate s)

/-- Embedding of `result::stream::synchronize` (result.rs). -/
def result.stream.synchronize (stream : Nat) (s : Driver) : Except CudaError Unit × Driver :=
  translate0 (sys.cuStreamSynchronize stream s)

/-- Embedding of `result::stream::destroy` (result.rs). -/
def result.stream.destroy (stream : Nat) (s : Driver) : Except CudaError Unit × Driver :=
  translate0 (sys.cuStreamDestroy stream s)

/-- Modelled from the spec: `result::module::unload`, referenced by the
destructor in borrow.rs but not defined under src/; one native module
unload call, translated by the single conversion rule. -/
def result.module.unload (m : Nat) (s : Driver) : Except CudaError Unit × Driver :=
  translate0 (sys.cuModuleUnload m s)

/-- Embedding of `result::malloc_async` (result.rs); `size` stands for
`size_of::<T>()`. -/
def result.malloc_async (size stream : Nat) (s : Driver) : Except CudaError Nat × Driver :=
  translate (sys.cuMemAllocAsync size stream s)

/-- Embedding of `result::memset_d8_async` (result.rs). -/
def result.memset_d8_async (ptr byte size stream : Nat) (s : Driver) :
    Except CudaError Unit × Driver :=
  translate0 (sys.cuMemsetD8Async ptr byte size stream s)

/-- Embedding of `result::memcpy_htod_async` (result.rs); the host value
`&T` is passed as its byte image `src` with `size = size_of::<T>()`. -/
def result.memcpy_htod_async (ptr : Nat) (src : List Nat) (size stream : Nat) (s : Driver) :
    Except CudaError Unit × Driver :=
  translate0 (sys.cuMemcpyHtoDAsync ptr src size stream s)

/-- Embedding of `result::memcpy_dtoh_async` (result.rs); `host`
identifies the destination `&mut T` buffer. -/
def result.memcpy_dtoh_async (host ptr size stream : Nat) (s : Driver) :
    Except CudaError Unit × Driver :=
  translate0 (sys.cuMemcpyDtoHAsync host ptr size stream s)

/-- Embedding of `result::free_async` (result.rs). -/
def result.free_async (ptr stream : Nat) (s : Driver) : Except CudaError Unit × Driver :=
  translate0 (sys.cuMemFreeAsync ptr stream s)

/-- Embedding of `CudaModule` (borrow.rs); the function registry is not
needed by any claim and is omitted. -/
structure CudaModule where
  cu_module : Nat
deriving DecidableEq

/-- Embedding of `CudaDevice` (borrow.rs); handles are numbers, `0` stands
for the null pointer, and the module map is a list of (name, module). -/
structure CudaDevice where
  cu_device : Int
  cu_primary_ctx : Nat
  cu_stream : Nat
  loaded_modules : List (Nat × CudaModule)
deriving DecidableEq

/-- Embedding of `InCudaMemory<T>` (borrow.rs): a device pointer, the
optionally retained host value (`Option<Box<T>>`) as its byte image, and
`size = size_of::<T>()`. -/
structure InCudaMemory where
  cu_device_ptr : Nat
  host_data : Option (List Nat)
  size : Nat
deriving DecidableEq

/-- Embedding of `CudaDevice::new` (borrow.rs lines 58-70). -/
def CudaDevice.new (ordinal : Nat) (s : Driver) : Except CudaError CudaDevice × Driver :=
  match result.init s with
  | (Except.error e, s1) => (Except.error e, s1)
  | (Except.ok _, s1) =>
    match result.device.get (Int.ofNat ordinal) s1 with
    | (Except.error e, s2) => (Except.error e, s2)
    | (Except.ok cu_device, s2) =>
      match result.device.primary_ctx_retain cu_device s2 with
      | (Except.error e, s3) => (Except.error e, s3)
      | (Except.ok cu_primary_ctx, s3) =>
        match result.ctx.set_current cu_primary_ctx s3 with
        | (Except.error e, s4) => (Except.error e, s4)
        | (Except.ok _, s4) =>
          match result.stream.create s4 with
          | (Except.error e, s5) => (Except.error e, s5)
          | (Except.ok cu_stream, s5) =>
            (Except.ok ⟨cu_device, cu_primary_ctx, cu_stream, []⟩, s5)

/-- Embedding of `CudaDevice::alloc` (borrow.rs lines 73-85): allocate
device memory for `T` and zero-fill it asynchronously. -/
def CudaDevice.alloc (dev : CudaDevice) (size : Nat) (s : Driver) :
    Except CudaError InCudaMemory × Driver :=
  match result.malloc_async size dev.cu_stream s with
  | (Except.error e, s1) => (Except.error e, s1)
  | (Except.ok cu_device_ptr, s1) =>
    match result.memset_d8_async cu_device_ptr 0 size dev.cu_stream s1 with
    | (Except.error e, s2) => (Except.error e, s2)
    | (Except.ok _, s2) => (Except.ok ⟨cu_device_ptr, none, size⟩, s2)

/-- Embedding of `CudaDevice::take` (borrow.rs lines 88-98): allocate
device memory and copy the host value to the device, retaining ownership
of the host value inside the handle. -/
def CudaDevice.take (dev : CudaDevice) (host_data : List Nat) (s : Driver) :
    Except CudaError InCudaMemory × Driver :=
  match result.malloc_async host_data.length dev.cu_stream s with
  | (Except.error e, s1) => (Except.error e, s1)
  | (Except.ok cu_device_ptr, s1) =>
    match result.memcpy_htod_async cu_device_ptr host_data host_data.length dev.cu_stream s1 with
    | (Except.error e, s2) => (Except.error e, s2)
    | (Except.ok _, s2) => (Except.ok ⟨cu_device_ptr, some host_data, host_data.length⟩, s2)

/-- Embedding of `CudaDevice::synchronize` (borrow.rs lines 115-117). -/
def CudaDevice.synchronize (dev : CudaDevice) (s : Driver) : Except CudaError Unit × Driver :=
  result.stream.synchronize dev.cu_stream s

/-- Embedding of `CudaDevice::release` (borrow.rs lines 101-113): reuse
the retained host value or allocate a zero-filled buffer, copy device to
host asynchronously, synchronize, free the device memory asynchronously,
and return the host buffer. -/
def CudaDevice.release (dev : CudaDevice) (t : InCudaMemory) (s : Driver) :
    Except CudaError (List Nat) × Driver :=
  let ha := s.hostAlloc (t.host_data.getD (List.replicate t.size 0))
  let h := ha.1
  let s0 := ha.2
  match result.memcpy_dtoh_async h t.cu_device_ptr t.size dev.cu_stream s0 with
  | (Except.error e, s1) => (Except.error e, s1)
  | (Except.ok _, s1) =>
    match CudaDevice.synchronize dev s1 with
    | (Except.error e, s2) => (Except.error e, s2)
    | (Except.ok _, s2) =>
      match result.free_async t.cu_device_ptr dev.cu_stream s2 with
      | (Except.error e, s3) => (Except.error e, s3)
      | (Except.ok _, s3) => (Except.ok ((assocGet s3.mem.host h).getD []), s3)

/-- Outcome of running a Rust destructor: normal completion, or a panic
raised by `.unwrap()` on a failed native call (process-terminating during
teardown). -/
inductive DropOutcome where
  | ok
  | panicked (e : CudaError)
deriving DecidableEq

/-- The module-unloading loop of `impl Drop for CudaDevice` (borrow.rs
lines 41-43): each failure panics via `.unwrap()`. -/
def dropModules : List (Nat × CudaModule) → Driver → DropOutcome × Driver
  | [], s => (DropOutcome.ok, s)
  | (_, m) :: rest, s =>
    match result.module.unload m.cu_module s with
    | (Except.error e, s1) => (DropOutcome.panicked e, s1)
    | (Except.ok _, s1) => dropModules rest s1

/-- The stream stage of `impl Drop for CudaDevice` (borrow.rs lines
45-48): destroy the stream if non-null; a failure panics via `.unwrap()`. -/
def dropStream (dev : CudaDevice) (s : Driver) : DropOutcome × Driver :=
  if dev.cu_stream ≠ 0 then
    match result.stream.destroy dev.cu_stream s with
    | (Except.error e, s1) => (DropOutcome.panicked e, s1)
    | (Except.ok _, s1) => (DropOutcome.ok, s1)
  else (DropOutcome.ok, s)

/-- The context stage of `impl Drop for CudaDevice` (borrow.rs lines
50-53): release the primary context if non-null; a failure panics via
`.unwrap()`. -/
def dropCtx (dev : CudaDevice) (s : Driver) : DropOutcome × Driver :=
  if dev.cu_primary_ctx ≠ 0 then
    match result.device.primary_ctx_release dev.cu_device s with
    | (Except.error e, s1) => (DropOutcome.panicked e, s1)
    | (Except.ok _, s1) => (DropOutcome.ok, s1)
  else (DropOutcome.ok, s)

/-- Embedding of `impl Drop for CudaDevice` (borrow.rs lines 39-54):
unload every module, then destroy the stream if non-null, then release
the primary context if non-null; any native failure panics immediately
and later stages do not run. -/
def CudaDevice.drop (dev : CudaDevice) (s : Driver) : DropOutcome × Driver :=
  match dropModules dev.loaded_modules s with
  | (DropOutcome.panicked e, s1) => (DropOutcome.panicked e, s1)
  | (DropOutcome.ok, s1) =>
    match dropStream dev s1 with
    | (DropOutcome.panicked e, s2) => (DropOutcome.panicked e, s2)
    | (DropOutcome.ok, s2) => dropCtx dev s2

/-- Whether a recorded call is a context activation. -/
def Call.isSetCurrent : Call → Bool
  | Call.cuCtxSetCurrent _ => true
  | _ => false

/-- A driver state in which every native call succeeds, with no history. -/
def okDriver : Driver :=
  { schedule := fun _ => none, calls := 0, trace := [], nextPtr := 1, nextHost := 0,
    mem := ⟨[], []⟩, pending := [] }

/-- A driver state whose first native call fails with status 5 and all
later calls succeed. -/
def failFirstDriver : Driver :=
  { okDriver with schedule := fun i => if i = 0 then some 5 else none }

/-- A driver state whose second native call fails with status 7 and all
other calls succeed. -/
def failSecondDriver : Driver :=
  { okDriver with schedule := fun i => if i = 1 then some 7 else none }

/-- A concrete device handle for witnesses. -/
def dev0 : CudaDevice := ⟨0, 1, 2, []⟩

/-- A concrete device handle with two loaded modules for witnesses. -/
def devMods : CudaDevice := ⟨0, 1, 2, [(10, ⟨21⟩), (11, ⟨22⟩)]⟩

/-- A concrete allocated handle for witnesses. -/
def t0 : InCudaMemory := ⟨5, some [7, 8], 2⟩

/-- All native calls between two driver states succeeded: the call window
consulted only success entries of the schedule. -/
def okStep (s s1 : Driver) : Prop :=
  s1.schedule = s.schedule ∧ s.calls ≤ s1.calls ∧
  ∀ i, s.calls ≤ i → i < s1.calls → (s.schedule i).getD 0 = 0

/-- A run that panicked on its first failing native call: the last call
made is the failing one (its nonzero code is the panic payload) and every
call before it succeeded; no later call was issued. -/
def panicStep (s s1 : Driver) (e : CudaError) : Prop :=
  s1.schedule = s.schedule ∧ s.calls < s1.calls ∧
  e.code = (s.schedule (s1.calls - 1)).getD 0 ∧ e.code ≠ 0 ∧
  ∀ i, s.calls ≤ i → i < s1.calls - 1 → (s.schedule i).getD 0 = 0

theorem record_schedule (s : Driver) (c : Call) : (s.record c).schedule = s.schedule := rfl

theorem record_calls (s : Driver) (c : Call) : (s.record c).calls = s.calls + 1 := rfl

theorem record_trace (s : Driver) (c : Call) : (s.record c).trace = s.trace ++ [c] := rfl

theorem init_ok (s : Driver) (h : s.code = 0) :
    result.init s = (Except.ok (), s.record Call.cuInit) := by
  simp [result.init, translate0, sys.cuInit, CUresult.result, h]

theorem init_err (s : Driver) (h : s.code ≠ 0) :
    result.init s = (Except.error ⟨s.code⟩, s.record Call.cuInit) := by
  simp [result.init, translate0, sys.cuInit, CUresult.result, h]

theorem device_get_ok (ordinal : Int) (s : Driver) (h : s.code = 0) :
    result.device.get ordinal s = (Except.ok ordinal, s.record (Call.cuDeviceGet ordinal)) := by
  simp [result.device.get, translate, sys.cuDeviceGet, CUresult.result, h]

theorem device_get_err (ordinal : Int) (s : Driver) (h : s.code ≠ 0) :
    result.device.get ordinal s =
      (Except.error ⟨s.code⟩, s.record (Call.cuDeviceGet ordinal)) := by
  simp [result.device.get, translate, sys.cuDeviceGet, CUresult.result, h]

theorem primary_ctx_retain_ok (dev : Int) (s : Driver) (h : s.code = 0) :
    result.device.primary_ctx_retain dev s =
      (Except.ok s.nextPtr,
       { s.record (Call.cuDevicePrimaryCtxRetain dev) with nextPtr := s.nextPtr + 1 }) := by
  simp [result.device.primary_ctx_retain, translate, sys.cuDevicePrimaryCtxRetain,
        CUresult.result, h, Driver.record]

theorem primary_ctx_retain_err (dev : Int) (s : Driver) (h : s.code ≠ 0) :
    result.device.primary_ctx_retain dev s =
      (Except.error ⟨s.code⟩, s.record (Call.cuDevicePrimaryCtxRetain dev)) := by
  simp [result.device.primary_ctx_retain, translate, sys.cuDevicePrimaryCtxRetain,
        CUresult.result, h]

theorem primary_ctx_release_ok (dev : Int) (s : Driver) (h : s.code = 0) :
    result.device.primary_ctx_release dev s =
      (Except.ok (), s.record (Call.cuDevicePrimaryCtxRelease dev)) := by
  simp [result.device.primary_ctx_release, translate0, sys.cuDevicePrimaryCtxRelease,
        CUresult.result, h]

theorem primary_ctx_release_err (dev : Int) (s : Driver) (h : s.code ≠ 0) :
    result.device.primary_ctx_release dev s =
      (Except.error ⟨s.code⟩, s.record (Call.cuDevicePrimaryCtxRelease dev)) := by
  simp [result.device.primary_ctx_release, translate0, sys.cuDevicePrimaryCtxRelease,
        CUresult.result, h]

theorem set_current_ok (ctx : Nat) (s : Driver) (h : s.code = 0) :
    result.ctx.set_current ctx s = (Except.ok (), s.record (Call.cuCtxSetCurrent ctx)) := by
  simp [result.ctx.set_current, translate0, sys.cuCtxSetCurrent, CUresult.result, h]

theorem set_current_err (ctx : Nat) (s : Driver) (h : s.code ≠ 0) :
    result.ctx.set_current ctx s =
      (Except.error ⟨s.code⟩, s.record (Call.cuCtxSetCurrent ctx)) := by
  simp [result.ctx.set_current, translate0, sys.cuCtxSetCurrent, CUresult.result, h]

theorem stream_create_ok (s : Driver) (h : s.code = 0) :
    result.stream.create s =
      (Except.ok s.nextPtr, { s.record Call.cuStreamCreate with nextPtr := s.nextPtr + 1 }) := by
  simp [result.stream.create, translate, sys.cuStreamCreate, CUresult.result, h, Driver.record]

theorem stream_create_err (s : Driver) (h : s.code ≠ 0) :
    result.stream.create s = (Except.error ⟨s.code⟩, s.record Call.cuStreamCreate) := by
  simp [result.stream.create, translate, sys.cuStreamCreate, CUresult.result, h]

theorem stream_synchronize_ok (stream : Nat) (s : Driver) (h : s.code = 0) :
    result.stream.synchronize stream s =
      (Except.ok (),
       { s.record (Call.cuStreamSynchronize stream) with
           mem := execOps s.mem s.pending, pending := [] }) := by
  simp [result.stream.synchronize, translate0, sys.cuStreamSynchronize, CUresult.result, h,
        Driver.record]

theorem stream_synchronize_err (stream : Nat) (s : Driver) (h : s.code ≠ 0) :
    result.stream.synchronize stream s =
      (Except.error ⟨s.code⟩, s.record (Call.cuStreamSynchronize stream)) := by
  simp [result.stream.synchronize, translate0, sys.cuStreamSynchronize, CUresult.result, h]

theorem stream_destroy_ok (stream : Nat) (s : Driver) (h : s.code = 0) :
    result.stream.destroy stream s = (Except.ok (), s.record (Call.cuStreamDestroy stream)) := by
  simp [result.stream.destroy, translate0, sys.cuStreamDestroy, CUresult.result, h]

theorem stream_destroy_err (stream : Nat) (s : Driver) (h : s.code ≠ 0) :
    result.stream.destroy stream s =
      (Except.error ⟨s.code⟩, s.record (Call.cuStreamDestroy stream)) := by
  simp [result.stream.destroy, translate0, sys.cuStreamDestroy, CUresult.result, h]

theorem module_unload_ok (m : Nat) (s : Driver) (h : s.code = 0) :
    result.module.unload m s = (Except.ok (), s.record (Call.cuModuleUnload m)) := by
  simp [result.module.unload, translate0, sys.cuModuleUnload, CUresult.result, h]

theorem module_unload_err (m : Nat) (s : Driver) (h : s.code ≠ 0) :
    result.module.unload m s = (Except.error ⟨s.code⟩, s.record (Call.cuModuleUnload m)) := by
  simp [result.module.unload, translate0, sys.cuModuleUnload, CUresult.result, h]

theorem malloc_async_ok (size stream : Nat) (s : Driver) (h : s.code = 0) :
    result.malloc_async size stream s =
      (Except.ok s.nextPtr,
       { s.record (Call.cuMemAllocAsync size stream) with
           nextPtr := s.nextPtr + 1,
           pending := s.pending ++ [StreamOp.allocOp s.nextPtr size] }) := by
  simp [result.malloc_async, translate, sys.cuMemAllocAsync, CUresult.result, h, Driver.record]

theorem malloc_async_err (size stream : Nat) (s : Driver) (h : s.code ≠ 0) :
    result.malloc_async size stream s =
      (Except.error ⟨s.code⟩, s.record (Call.cuMemAllocAsync size stream)) := by
  simp [result.malloc_async, translate, sys.cuMemAllocAsync, CUresult.result, h]

theorem memset_d8_async_ok (ptr byte size stream : Nat) (s : Driver) (h : s.code = 0) :
    result.memset_d8_async ptr byte size stream s =
      (Except.ok (),
       { s.record (Call.cuMemsetD8Async ptr byte size stream) with
           pending := s.pending ++ [StreamOp.memsetOp ptr byte size] }) := by
  simp [result.memset_d8_async, translate0, sys.cuMemsetD8Async, CUresult.result, h,
        Driver.record]

theorem memset_d8_async_err (ptr byte size stream : Nat) (s : Driver) (h : s.code ≠ 0) :
    result.memset_d8_async ptr byte size stream s =
      (Except.error ⟨s.code⟩, s.record (Call.cuMemsetD8Async ptr byte size stream)) := by
  simp [result.memset_d8_async, translate0, sys.cuMemsetD8Async, CUresult.result, h]

theorem memcpy_htod_async_ok (ptr : Nat) (src : List Nat) (size stream : Nat) (s : Driver)
    (h : s.code = 0) :
    result.memcpy_htod_async ptr src size stream s =
      (Except.ok (),
       { s.record (Call.cuMemcpyHtoDAsync ptr size stream) with
           pending := s.pending ++ [StreamOp.htodOp ptr (src.take size)] }) := by
  simp [result.memcpy_htod_async, translate0, sys.cuMemcpyHtoDAsync, CUresult.result, h,
        Driver.record]

theorem memcpy_htod_async_err (ptr : Nat) (src : List Nat) (size stream : Nat) (s : Driver)
    (h : s.code ≠ 0) :
    result.memcpy_htod_async ptr src size stream s =
      (Except.error ⟨s.code⟩, s.record (Call.cuMemcpyHtoDAsync ptr size stream)) := by
  simp [result.memcpy_htod_async, translate0, sys.cuMemcpyHtoDAsync, CUresult.result, h]

theorem memcpy_dtoh_async_ok (host ptr size stream : Nat) (s : Driver) (h : s.code = 0) :
    result.memcpy_dtoh_async host ptr size stream s =
      (Except.ok (),
       { s.record (Call.cuMemcpyDtoHAsync host ptr size stream) with
           pending := s.pending ++ [StreamOp.dtohOp host ptr size] }) := by
  simp [result.memcpy_dtoh_async, translate0, sys.cuMemcpyDtoHAsync, CUresult.result, h,
        Driver.record]

theorem memcpy_dtoh_async_err (host ptr size stream : Nat) (s : Driver) (h : s.code ≠ 0) :
    result.memcpy_dtoh_async host ptr size stream s =
      (Except.error ⟨s.code⟩, s.record (Call.cuMemcpyDtoHAsync host ptr size stream)) := by
  simp [result.memcpy_dtoh_async, translate0, sys.cuMemcpyDtoHAsync, CUresult.result, h]

theorem free_async_ok (ptr stream : Nat) (s : Driver) (h : s.code = 0) :
    result.free_async ptr stream s =
      (Except.ok (),
       { s.record (Call.cuMemFreeAsync ptr stream) with
           pending := s.pending ++ [StreamOp.freeOp ptr] }) := by
  simp [result.free_async, translate0, sys.cuMemFreeAsync, CUresult.result, h, Driver.record]

theorem free_async_err (ptr stream : Nat) (s : Driver) (h : s.code ≠ 0) :
    result.free_async ptr stream s =
      (Except.error ⟨s.code⟩, s.record (Call.cuMemFreeAsync ptr stream)) := by
  simp [result.free_async, translate0, sys.cuMemFreeAsync, CUresult.result, h]

theorem assocGet_set_same (m : List (Nat × List Nat)) (k : Nat) (v : List Nat) :
    assocGet (assocSet m k v) k = some v := by
  induction m with
  | nil => simp [assocGet, assocSet]
  | cons a rest ih =>
    by_cases h : a.1 = k
    · simp [assocGet, assocSet, h]
    · simp [assocGet, assocSet, h, ih]

theorem translate0_inv_ok (r : CUresult × Driver) (sA : Driver)
    (h : translate0 r = (Except.ok (), sA)) : r.1 = 0 ∧ sA = r.2 := by
  rcases r with ⟨code, st⟩
  by_cases hc : code = 0
  · have he : translate0 (code, st) = (Except.ok (), st) := by
      simp [translate0, CUresult.result, hc]
    rw [he] at h
    injection h with h1 h2
    exact ⟨hc, h2.symm⟩
  · have he : translate0 (code, st) = (Except.error ⟨code⟩, st) := by
      simp [translate0, CUresult.result, hc]
    rw [he] at h
    injection h with h1 h2
    exact absurd h1 (by simp)

theorem translate0_inv_err (r : CUresult × Driver) (sA : Driver) (e : CudaError)
    (h : translate0 r = (Except.error e, sA)) : r.1 ≠ 0 ∧ e = ⟨r.1⟩ ∧ sA = r.2 := by
  rcases r with ⟨code, st⟩
  by_cases hc : code = 0
  · have he : translate0 (code, st) = (Except.ok (), st) := by
      simp [translate0, CUresult.result, hc]
    rw [he] at h
    injection h with h1 h2
    exact absurd h1 (by simp)
  · have he : translate0 (code, st) = (Except.error ⟨code⟩, st) := by
      simp [translate0, CUresult.result, hc]
    rw [he] at h
    injection h with h1 h2
    injection h1 with h3
    exact ⟨hc, h3.symm, h2.symm⟩

theorem translate_inv_ok {α : Type} (r : CUresult × α × Driver) (a : α) (sA : Driver)
    (h : translate r = (Except.ok a, sA)) : r.1 = 0 ∧ a = r.2.1 ∧ sA = r.2.2 := by
  rcases r with ⟨code, b, st⟩
  by_cases hc : code = 0
  · have he : translate (code, b, st) = (Except.ok b, st) := by
      simp [translate, CUresult.result, hc]
    rw [he] at h
    injection h with h1 h2
    injection h1 with h3
    exact ⟨hc, h3.symm, h2.symm⟩
  · have he : translate (code, b, st) = (Except.error ⟨code⟩, st) := by
      simp [translate, CUresult.result, hc]
    rw [he] at h
    injection h with h1 h2
    exact absurd h1 (by simp)

theorem translate_inv_err {α : Type} (r : CUresult × α × Driver) (sA : Driver) (e : CudaError)
    (h : translate r = (Except.error e, sA)) : r.1 ≠ 0 ∧ e = ⟨r.1⟩ ∧ sA = r.2.2 := by
  rcases r with ⟨code, b, st⟩
  by_cases hc : code = 0
  · have he : translate (code, b, st) = (Except.ok b, st) := by
      simp [translate, CUresult.result, hc]
    rw [he] at h
    injection h with h1 h2
    exact absurd h1 (by simp)
  · have he : translate (code, b, st) = (Except.error ⟨code⟩, st) := by
      simp [translate, CUresult.result, hc]
    rw [he] at h
    injection h with h1 h2
    injection h1 with h3
    exact ⟨hc, h3.symm, h2.symm⟩

/-- Inversion of a successful `CudaDevice::take`: the returned handle and
the exact driver state are determined. -/
theorem take_inv_ok (dev : CudaDevice) (v : List Nat) (s s1 : Driver) (t : InCudaMemory)
    (h : CudaDevice.take dev v s = (Except.ok t, s1)) :
    t = ⟨s.nextPtr, some v, v.length⟩ ∧
    s1 = { s with calls := s.calls + 2,
                  trace := s.trace ++ [Call.cuMemAllocAsync v.length dev.cu_stream,
                                       Call.cuMemcpyHtoDAsync s.nextPtr v.length dev.cu_stream],
                  nextPtr := s.nextPtr + 1,
                  pending := s.pending ++ [StreamOp.allocOp s.nextPtr v.length,
                                           StreamOp.htodOp s.nextPtr v] } := by
  unfold CudaDevice.take at h
  split at h
  next e sA hm => simp at h
  next p sA hm =>
    split at h
    next e sB hc => simp at h
    next u sB hc =>
      injection h with h1 h2
      injection h1 with h3
      obtain ⟨hm0, hp, hsA⟩ := translate_inv_ok _ _ _ hm
      simp only [sys.cuMemAllocAsync] at hm0
      simp only [sys.cuMemAllocAsync, hm0, if_pos] at hp hsA
      obtain ⟨hc0, hsB⟩ := translate0_inv_ok _ _ hc
      simp only [sys.cuMemcpyHtoDAsync] at hc0
      simp only [sys.cuMemcpyHtoDAsync, hc0, if_pos] at hsB
      subst hsA hsB hp
      refine ⟨h3.symm, ?_⟩
      rw [← h2]
      simp [Driver.record, List.take_length]

/-- Inversion of a successful `CudaDevice::alloc`: the returned handle and
the exact driver state are determined. -/
theorem alloc_inv_ok (dev : CudaDevice) (n : Nat) (s s1 : Driver) (t : InCudaMemory)
    (h : CudaDevice.alloc dev n s = (Except.ok t, s1)) :
    t = ⟨s.nextPtr, none, n⟩ ∧
    s1 = { s with calls := s.calls + 2,
                  trace := s.trace ++ [Call.cuMemAllocAsync n dev.cu_stream,
                                       Call.cuMemsetD8Async s.nextPtr 0 n dev.cu_stream],
                  nextPtr := s.nextPtr + 1,
                  pending := s.pending ++ [StreamOp.allocOp s.nextPtr n,
                                           StreamOp.memsetOp s.nextPtr 0 n] } := by
  unfold CudaDevice.alloc at h
  split at h
  next e sA hm => simp at h
  next p sA hm =>
    split at h
    next e sB hc => simp at h
    next u sB hc =>
      injection h with h1 h2
      injection h1 with h3
      obtain ⟨hm0, hp, hsA⟩ := translate_inv_ok _ _ _ hm
      simp only [sys.cuMemAllocAsync] at hm0
      simp only [sys.cuMemAllocAsync, hm0, if_pos] at hp hsA
      obtain ⟨hc0, hsB⟩ := translate0_inv_ok _ _ hc
      simp only [sys.cuMemsetD8Async] at hc0
      simp only [sys.cuMemsetD8Async, hc0, if_pos] at hsB
      subst hsA hsB hp
      refine ⟨h3.symm, ?_⟩
      rw [← h2]
      simp [Driver.record]

/-- Inversion of a successful `CudaDevice::release`: the returned host
bytes and the exact driver state are determined.  The returned bytes are
read from the host buffer after the queue (earlier pending operations,
then the device-to-host copy) has retired at the synchronization. -/
theorem release_inv_ok (dev : CudaDevice) (t : InCudaMemory) (s s1 : Driver) (out : List Nat)
    (h : CudaDevice.release dev t s = (Except.ok out, s1)) :
    out = (assocGet (execOps
            ⟨s.mem.dev, assocSet s.mem.host s.nextHost (t.host_data.getD (List.replicate t.size 0))⟩
            (s.pending ++ [StreamOp.dtohOp s.nextHost t.cu_device_ptr t.size])).host
          s.nextHost).getD [] ∧
    s1 = { s with calls := s.calls + 3,
                  trace := s.trace ++
                    [Call.cuMemcpyDtoHAsync s.nextHost t.cu_device_ptr t.size dev.cu_stream,
                     Call.cuStreamSynchronize dev.cu_stream,
                     Call.cuMemFreeAsync t.cu_device_ptr dev.cu_stream],
                  nextHost := s.nextHost + 1,
                  mem := execOps
                    ⟨s.mem.dev,
                     assocSet s.mem.host s.nextHost (t.host_data.getD (List.replicate t.size 0))⟩
                    (s.pending ++ [StreamOp.dtohOp s.nextHost t.cu_device_ptr t.size]),
                  pending := [StreamOp.freeOp t.cu_device_ptr] } := by
  unfold CudaDevice.release at h
  simp only [Driver.hostAlloc] at h
  split at h
  next e sA hd => simp at h
  next u sA hd =>
    split at h
    next e sB hy => simp at h
    next u2 sB hy =>
      split at h
      next e sC hf => simp at h
      next u3 sC hf =>
        injection h with h1 h2
        injection h1 with h3
        obtain ⟨hd0, hsA⟩ := translate0_inv_ok _ _ hd
        simp only [sys.cuMemcpyDtoHAsync] at hd0
        simp only [sys.cuMemcpyDtoHAsync, hd0, if_pos] at hsA
        unfold CudaDevice.synchronize result.stream.synchronize at hy
        obtain ⟨hy0, hsB⟩ := translate0_inv_ok _ _ hy
        simp only [sys.cuStreamSynchronize] at hy0
        simp only [sys.cuStreamSynchronize, hy0, if_pos] at hsB
        obtain ⟨hf0, hsC⟩ := translate0_inv_ok _ _ hf
        simp only [sys.cuMemFreeAsync] at hf0
        simp only [sys.cuMemFreeAsync, hf0, if_pos] at hsC
        subst hsA hsB hsC
        constructor
        · rw [← h3]
          simp [Driver.record]
        · rw [← h2]
          simp [Driver.record]

/-- Claim C2: for every logical value `v`, allocating device memory from
the host value `v` (`CudaDevice::take`) and then releasing the resulting
handle (`CudaDevice::release`) returns a host value byte-identical to
`v`, whenever both operations succeed. -/
theorem C2_take_release_roundtrip (dev : CudaDevice) (v : List Nat) (s s1 s2 : Driver)
    (t : InCudaMemory) (out : List Nat)
    (h1 : CudaDevice.take dev v s = (Except.ok t, s1))
    (h2 : CudaDevice.release dev t s1 = (Except.ok out, s2)) :
    out = v := by
  obtain ⟨ht, hs1⟩ := take_inv_ok dev v s s1 t h1
  subst ht hs1
  obtain ⟨hout, _⟩ := release_inv_ok dev _ _ _ _ h2
  rw [hout]
  simp [execOps, List.foldl_append, execOp, assocGet_set_same, List.take_length]

/-- Witness for C2: on the all-success driver, taking the bytes 3, 4, 5 to
the device and releasing the handle succeeds and returns the same bytes. -/
theorem C2_take_release_roundtrip_witness :
    ∃ t s1 out s2,
      CudaDevice.take dev0 [3, 4, 5] okDriver = (Except.ok t, s1) ∧
      CudaDevice.release dev0 t s1 = (Except.ok out, s2) ∧ out = [3, 4, 5] :=
  ⟨_, _, _, _, rfl, rfl,
   C2_take_release_roundtrip dev0 [3, 4, 5] okDriver _ _ _ _ rfl rfl⟩

/-- Claim C3: allocating an empty (zero-filled) device buffer
(`CudaDevice::alloc`) and then releasing the handle returns a host value
whose bytes are all zero, whenever both operations succeed. -/
theorem C3_alloc_release_zero (dev : CudaDevice) (n : Nat) (s s1 s2 : Driver)
    (t : InCudaMemory) (out : List Nat)
    (h1 : CudaDevice.alloc dev n s = (Except.ok t, s1))
    (h2 : CudaDevice.release dev t s1 = (Except.ok out, s2)) :
    out = List.replicate n 0 := by
  obtain ⟨ht, hs1⟩ := alloc_inv_ok dev n s s1 t h1
  subst ht hs1
  obtain ⟨hout, _⟩ := release_inv_ok dev _ _ _ _ h2
  rw [hout]
  simp [execOps, List.foldl_append, execOp, assocGet_set_same, List.take_replicate]

/-- Witness for C3: on the all-success driver, allocating an empty 4-byte
buffer and releasing it succeeds and returns four zero bytes. -/
theorem C3_alloc_release_zero_witness :
    ∃ t s1 out s2,
      CudaDevice.alloc dev0 4 okDriver = (Except.ok t, s1) ∧
      CudaDevice.release dev0 t s1 = (Except.ok out, s2) ∧ out = List.replicate 4 0 :=
  ⟨_, _, _, _, rfl, rfl,
   C3_alloc_release_zero dev0 4 okDriver _ _ _ _ rfl rfl⟩

/-- Claim C4: for every handle in an Allocated state, a successful release
issues exactly the asynchronous device-to-host copy, then the stream
synchronization, then the asynchronous free, in this order; in
particular a synchronize always occurs between the copy and the free. -/
theorem C4_release_copy_sync_free_order (dev : CudaDevice) (t : InCudaMemory)
    (s s1 : Driver) (out : List Nat)
    (h : CudaDevice.release dev t s = (Except.ok out, s1)) :
    s1.trace = s.trace ++
      [Call.cuMemcpyDtoHAsync s.nextHost t.cu_device_ptr t.size dev.cu_stream,
       Call.cuStreamSynchronize dev.cu_stream,
       Call.cuMemFreeAsync t.cu_device_ptr dev.cu_stream] := by
  obtain ⟨_, hs1⟩ := release_inv_ok dev t s s1 out h
  rw [hs1]

/-- Witness for C4: a successful concrete release records exactly the
copy, synchronize, free sequence. -/
theorem C4_release_copy_sync_free_order_witness :
    ∃ out s1,
      CudaDevice.release dev0 t0 okDriver = (Except.ok out, s1) ∧
      s1.trace = okDriver.trace ++
        [Call.cuMemcpyDtoHAsync okDriver.nextHost t0.cu_device_ptr t0.size dev0.cu_stream,
         Call.cuStreamSynchronize dev0.cu_stream,
         Call.cuMemFreeAsync t0.cu_device_ptr dev0.cu_stream] :=
  ⟨_, _, rfl, C4_release_copy_sync_free_order dev0 t0 okDriver _ _ rfl⟩

/-- Inversion of a normally completed module-unload loop: one unload call
per module, in list order, and nothing else changes but calls/trace. -/
theorem dropModules_inv_ok (mods : List (Nat × CudaModule)) (s s1 : Driver)
    (h : dropModules mods s = (DropOutcome.ok, s1)) :
    s1 = { s with calls := s.calls + mods.length,
                  trace := s.trace ++ mods.map (fun m => Call.cuModuleUnload m.2.cu_module) } := by
  induction mods generalizing s with
  | nil =>
    injection h with h1 h2
    rw [← h2]
    simp
  | cons hd rest ih =>
    rw [dropModules] at h
    split at h
    next e sA hu => simp at h
    next u sA hu =>
      obtain ⟨hu0, hsA⟩ := translate0_inv_ok _ _ hu
      simp only [sys.cuModuleUnload] at hsA
      subst hsA
      rw [ih _ h]
      simp [Driver.record, List.append_assoc]
      omega

/-- Inversion of a normally completed stream teardown stage when the
stream handle is non-null: exactly one destroy call. -/
theorem dropStream_inv_ok (dev : CudaDevice) (s s1 : Driver) (hg : dev.cu_stream ≠ 0)
    (h : dropStream dev s = (DropOutcome.ok, s1)) :
    s1 = s.record (Call.cuStreamDestroy dev.cu_stream) := by
  rw [dropStream, if_pos hg] at h
  split at h
  next e sA hu => simp at h
  next u sA hu =>
    obtain ⟨hu0, hsA⟩ := translate0_inv_ok _ _ hu
    simp only [sys.cuStreamDestroy] at hsA
    injection h with h1 h2
    rw [← h2, hsA]

/-- Inversion of a normally completed context teardown stage when the
context handle is non-null: exactly one primary-context release call. -/
theorem dropCtx_inv_ok (dev : CudaDevice) (s s1 : Driver) (hg : dev.cu_primary_ctx ≠ 0)
    (h : dropCtx dev s = (DropOutcome.ok, s1)) :
    s1 = s.record (Call.cuDevicePrimaryCtxRelease dev.cu_device) := by
  rw [dropCtx, if_pos hg] at h
  split at h
  next e sA hu => simp at h
  next u sA hu =>
    obtain ⟨hu0, hsA⟩ := translate0_inv_ok _ _ hu
    simp only [sys.cuDevicePrimaryCtxRelease] at hsA
    injection h with h1 h2
    rw [← h2, hsA]

/-- Claim C5: a normally completed destructor issues the driver calls in
stage order: every loaded module is unloaded first, then the stream is
destroyed, then the primary context is released. -/
theorem C5_drop_teardown_order (dev : CudaDevice) (s s1 : Driver)
    (hstream : dev.cu_stream ≠ 0) (hctx : dev.cu_primary_ctx ≠ 0)
    (h : CudaDevice.drop dev s = (DropOutcome.ok, s1)) :
    s1.trace = s.trace
      ++ dev.loaded_modules.map (fun m => Call.cuModuleUnload m.2.cu_module)
      ++ [Call.cuStreamDestroy dev.cu_stream,
          Call.cuDevicePrimaryCtxRelease dev.cu_device] := by
  unfold CudaDevice.drop at h
  split at h
  next e sA hm => simp at h
  next sA hm =>
    split at h
    next e sB hst => simp at h
    next sB hst =>
      have hA := dropModules_inv_ok dev.loaded_modules s sA hm
      have hB := dropStream_inv_ok dev sA sB hstream hst
      have hC := dropCtx_inv_ok dev sB s1 hctx h
      subst hA hB hC
      simp [Driver.record, List.append_assoc]

/-- Witness for C5: dropping a concrete device with two loaded modules on
the all-success driver records unload, unload, destroy, release. -/
theorem C5_drop_teardown_order_witness :
    ∃ s1,
      CudaDevice.drop devMods okDriver = (DropOutcome.ok, s1) ∧
      s1.trace = okDriver.trace
        ++ devMods.loaded_modules.map (fun m => Call.cuModuleUnload m.2.cu_module)
        ++ [Call.cuStreamDestroy devMods.cu_stream,
            Call.cuDevicePrimaryCtxRelease devMods.cu_device] :=
  ⟨_, rfl, C5_drop_teardown_order devMods okDriver _ (by decide) (by decide) rfl⟩

/-- Claim C7: in the composite operations alloc and take, if the
device-memory allocation succeeds but the subsequent zero-fill or copy
fails, the operation returns that first error immediately; the recorded
calls are exactly the allocation and the failing primitive (no free is
issued) and the pending queue keeps the allocation with no free enqueued,
so the already-allocated device memory is not freed by the operation. -/
theorem C7_fail_fast_no_rollback (dev : CudaDevice) (n : Nat) (v : List Nat) (s : Driver)
    (e : CUresult) (h0 : s.schedule s.calls = none) (h1 : s.schedule (s.calls + 1) = some e)
    (he : e ≠ 0) :
    (CudaDevice.alloc dev n s =
      (Except.error ⟨e⟩,
       { s with calls := s.calls + 2,
                trace := s.trace ++ [Call.cuMemAllocAsync n dev.cu_stream,
                                     Call.cuMemsetD8Async s.nextPtr 0 n dev.cu_stream],
                nextPtr := s.nextPtr + 1,
                pending := s.pending ++ [StreamOp.allocOp s.nextPtr n] })) ∧
    (CudaDevice.take dev v s =
      (Except.error ⟨e⟩,
       { s with calls := s.calls + 2,
                trace := s.trace ++ [Call.cuMemAllocAsync v.length dev.cu_stream,
                                     Call.cuMemcpyHtoDAsync s.nextPtr v.length dev.cu_stream],
                nextPtr := s.nextPtr + 1,
                pending := s.pending ++ [StreamOp.allocOp s.nextPtr v.length] })) := by
  have hc0 : s.code = 0 := by simp [Driver.code, h0]
  constructor
  · have step2 := memset_d8_async_err s.nextPtr 0 n dev.cu_stream
      { s.record (Call.cuMemAllocAsync n dev.cu_stream) with
        nextPtr := s.nextPtr + 1,
        pending := s.pending ++ [StreamOp.allocOp s.nextPtr n] }
      (by simp [Driver.code, Driver.record, h1, he])
    unfold CudaDevice.alloc
    rw [malloc_async_ok n dev.cu_stream s hc0]
    simp only [step2]
    simp [Driver.record, Driver.code, h1]
  · have step2 := memcpy_htod_async_err s.nextPtr v v.length dev.cu_stream
      { s.record (Call.cuMemAllocAsync v.length dev.cu_stream) with
        nextPtr := s.nextPtr + 1,
        pending := s.pending ++ [StreamOp.allocOp s.nextPtr v.length] }
      (by simp [Driver.code, Driver.record, h1, he])
    unfold CudaDevice.take
    rw [malloc_async_ok v.length dev.cu_stream s hc0]
    simp only [step2]
    simp [Driver.record, Driver.code, h1]

/-- Witness for C7: on a driver whose second native call fails with
status 7, both alloc and take surface the error 7. -/
theorem C7_fail_fast_no_rollback_witness :
    (CudaDevice.alloc dev0 4 failSecondDriver).1 = Except.error ⟨7⟩ ∧
    (CudaDevice.take dev0 [9] failSecondDriver).1 = Except.error ⟨7⟩ := by
  obtain ⟨ha, hb⟩ :=
    C7_fail_fast_no_rollback dev0 4 [9] failSecondDriver 7 rfl rfl (by decide)
  constructor
  · rw [ha]
  · rw [hb]

/-- Claim C10: if the device-to-host copy or the stream synchronization
inside release fails, release returns that error before any free is
issued: the trace gains no free call, the pending queue gains no free
operation, and no host buffer is returned. -/
theorem C10_release_error_before_free (dev : CudaDevice) (t : InCudaMemory)
    (sa sb : Driver) (ea eb : CUresult)
    (ha : sa.schedule sa.calls = some ea) (hea : ea ≠ 0)
    (hb0 : sb.schedule sb.calls = none) (hb1 : sb.schedule (sb.calls + 1) = some eb)
    (heb : eb ≠ 0) :
    (CudaDevice.release dev t sa =
      (Except.error ⟨ea⟩,
       { sa with calls := sa.calls + 1,
                 trace := sa.trace ++
                   [Call.cuMemcpyDtoHAsync sa.nextHost t.cu_device_ptr t.size dev.cu_stream],
                 nextHost := sa.nextHost + 1,
                 mem := { sa.mem with host := assocSet sa.mem.host sa.nextHost (t.host_data.getD (List.replicate t.size 0)) } })) ∧
    (CudaDevice.release dev t sb =
      (Except.error ⟨eb⟩,
       { sb with calls := sb.calls + 2,
                 trace := sb.trace ++
                   [Call.cuMemcpyDtoHAsync sb.nextHost t.cu_device_ptr t.size dev.cu_stream,
                    Call.cuStreamSynchronize dev.cu_stream],
                 nextHost := sb.nextHost + 1,
                 mem := { sb.mem with host := assocSet sb.mem.host sb.nextHost (t.host_data.getD (List.replicate t.size 0)) },
                 pending := sb.pending ++
                   [StreamOp.dtohOp sb.nextHost t.cu_device_ptr t.size] })) := by
  constructor
  · have step1 := memcpy_dtoh_async_err sa.nextHost t.cu_device_ptr t.size dev.cu_stream
      { sa with nextHost := sa.nextHost + 1,
                mem := { sa.mem with host := assocSet sa.mem.host sa.nextHost (t.host_data.getD (List.replicate t.size 0)) } }
      (by simp [Driver.code, ha, hea])
    unfold CudaDevice.release
    simp only [Driver.hostAlloc]
    simp only [step1]
    simp [Driver.record, Driver.code, ha]
  · have hcb0 : sb.code = 0 := by simp [Driver.code, hb0]
    have step1 := memcpy_dtoh_async_ok sb.nextHost t.cu_device_ptr t.size dev.cu_stream
      { sb with nextHost := sb.nextHost + 1,
                mem := { sb.mem with host := assocSet sb.mem.host sb.nextHost (t.host_data.getD (List.replicate t.size 0)) } }
      (by simp [Driver.code, hb0])
    have step2 := stream_synchronize_err dev.cu_stream
      ({ { sb with nextHost := sb.nextHost + 1,
                   mem := { sb.mem with host := assocSet sb.mem.host sb.nextHost (t.host_data.getD (List.replicate t.size 0)) }
         }.record (Call.cuMemcpyDtoHAsync sb.nextHost t.cu_device_ptr t.size dev.cu_stream) with
         pending := sb.pending ++ [StreamOp.dtohOp sb.nextHost t.cu_device_ptr t.size] })
      (by simp [Driver.code, Driver.record, hb1, heb])
    unfold CudaDevice.release CudaDevice.synchronize
    simp only [Driver.hostAlloc]
    simp only [step1]
    simp only [step2]
    simp [Driver.record, Driver.code, hb1]

/-- Witness for C10: a failing first call (copy) and a failing second call
(synchronize) each surface their error from release. -/
theorem C10_release_error_before_free_witness :
    (CudaDevice.release dev0 t0 failFirstDriver).1 = Except.error ⟨5⟩ ∧
    (CudaDevice.release dev0 t0 failSecondDriver).1 = Except.error ⟨7⟩ := by
  obtain ⟨ha, hb⟩ :=
    C10_release_error_before_free dev0 t0 failFirstDriver failSecondDriver 5 7
      rfl (by decide) rfl rfl (by decide)
  constructor
  · rw [ha]
  · rw [hb]

theorem okStep_refl (s : Driver) : okStep s s :=
  ⟨rfl, Nat.le_refl _, fun _ hi1 hi2 => absurd hi2 (by omega)⟩

theorem okStep_record (s : Driver) (c : Call) (h : s.code = 0) : okStep s (s.record c) := by
  refine ⟨rfl, by simp [Driver.record], ?_⟩
  intro i hi1 hi2
  simp only [Driver.record] at hi2
  have hi : i = s.calls := by omega
  subst hi
  exact h

theorem okStep_trans (s sA sB : Driver) (h1 : okStep s sA) (h2 : okStep sA sB) :
    okStep s sB := by
  obtain ⟨e1, l1, a1⟩ := h1
  obtain ⟨e2, l2, a2⟩ := h2
  refine ⟨e2.trans e1, l1.trans l2, ?_⟩
  intro i hi1 hi2
  by_cases hrange : i < sA.calls
  · exact a1 i hi1 hrange
  · have hv := a2 i (by omega) hi2
    rw [e1] at hv
    exact hv

theorem panicStep_record (s : Driver) (c : Call) (h : s.code ≠ 0) :
    panicStep s (s.record c) ⟨s.code⟩ := by
  refine ⟨rfl, by simp [Driver.record], by simp [Driver.record, Driver.code], h, ?_⟩
  intro i hi1 hi2
  exfalso
  simp only [Driver.record] at hi2
  omega

theorem okStep_panicStep (s sA sB : Driver) (e : CudaError)
    (h1 : okStep s sA) (h2 : panicStep sA sB e) : panicStep s sB e := by
  obtain ⟨e1, l1, a1⟩ := h1
  obtain ⟨e2, l2, c2, n2, a2⟩ := h2
  refine ⟨e2.trans e1, by omega, ?_, n2, ?_⟩
  · rw [c2, e1]
  · intro i hi1 hi2
    by_cases hrange : i < sA.calls
    · exact a1 i hi1 hrange
    · have hv := a2 i (by omega) hi2
      rw [e1] at hv
      exact hv

theorem dropModules_okStep (mods : List (Nat × CudaModule)) (s s1 : Driver)
    (h : dropModules mods s = (DropOutcome.ok, s1)) : okStep s s1 := by
  induction mods generalizing s with
  | nil =>
    injection h with h1 h2
    rw [← h2]
    exact okStep_refl s
  | cons hd rest ih =>
    rw [dropModules] at h
    split at h
    next e sA hu => simp at h
    next u sA hu =>
      obtain ⟨hu0, hsA⟩ := translate0_inv_ok _ _ hu
      simp only [sys.cuModuleUnload] at hu0 hsA
      subst hsA
      exact okStep_trans _ _ _ (okStep_record s _ hu0) (ih _ h)

theorem dropModules_panicStep (mods : List (Nat × CudaModule)) (s s1 : Driver) (e : CudaError)
    (h : dropModules mods s = (DropOutcome.panicked e, s1)) : panicStep s s1 e := by
  induction mods generalizing s with
  | nil => simp [dropModules] at h
  | cons hd rest ih =>
    rw [dropModules] at h
    split at h
    next e2 sA hu =>
      injection h with h1 h2
      injection h1 with h3
      obtain ⟨hu0, he2, hsA⟩ := translate0_inv_err _ _ _ hu
      simp only [sys.cuModuleUnload] at hu0 he2 hsA
      subst hsA
      rw [← h2, ← h3, he2]
      exact panicStep_record s _ hu0
    next u sA hu =>
      obtain ⟨hu0, hsA⟩ := translate0_inv_ok _ _ hu
      simp only [sys.cuModuleUnload] at hu0 hsA
      subst hsA
      exact okStep_panicStep _ _ _ _ (okStep_record s _ hu0) (ih _ h)

theorem dropStream_okStep (dev : CudaDevice) (s s1 : Driver)
    (h : dropStream dev s = (DropOutcome.ok, s1)) : okStep s s1 := by
  unfold dropStream at h
  by_cases hg : dev.cu_stream ≠ 0
  · rw [if_pos hg] at h
    split at h
    next e sA hu => simp at h
    next u sA hu =>
      obtain ⟨hu0, hsA⟩ := translate0_inv_ok _ _ hu
      simp only [sys.cuStreamDestroy] at hu0 hsA
      injection h with h1 h2
      rw [← h2, hsA]
      exact okStep_record s _ hu0
  · rw [if_neg hg] at h
    injection h with h1 h2
    rw [← h2]
    exact okStep_refl s

theorem dropStream_panicStep (dev : CudaDevice) (s s1 : Driver) (e : CudaError)
    (h : dropStream dev s = (DropOutcome.panicked e, s1)) : panicStep s s1 e := by
  unfold dropStream at h
  by_cases hg : dev.cu_stream ≠ 0
  · rw [if_pos hg] at h
    split at h
    next e2 sA hu =>
      injection h with h1 h2
      injection h1 with h3
      obtain ⟨hu0, he2, hsA⟩ := translate0_inv_err _ _ _ hu
      simp only [sys.cuStreamDestroy] at hu0 he2 hsA
      subst hsA
      rw [← h2, ← h3, he2]
      exact panicStep_record s _ hu0
    next u sA hu => simp at h
  · rw [if_neg hg] at h
    simp at h

theorem dropCtx_okStep (dev : CudaDevice) (s s1 : Driver)
    (h : dropCtx dev s = (DropOutcome.ok, s1)) : okStep s s1 := by
  unfold dropCtx at h
  by_cases hg : dev.cu_primary_ctx ≠ 0
  · rw [if_pos hg] at h
    split at h
    next e sA hu => simp at h
    next u sA hu =>
      obtain ⟨hu0, hsA⟩ := translate0_inv_ok _ _ hu
      simp only [sys.cuDevicePrimaryCtxRelease] at hu0 hsA
      injection h with h1 h2
      rw [← h2, hsA]
      exact okStep_record s _ hu0
  · rw [if_neg hg] at h
    injection h with h1 h2
    rw [← h2]
    exact okStep_refl s

theorem dropCtx_panicStep (dev : CudaDevice) (s s1 : Driver) (e : CudaError)
    (h : dropCtx dev s = (DropOutcome.panicked e, s1)) : panicStep s s1 e := by
  unfold dropCtx at h
  by_cases hg : dev.cu_primary_ctx ≠ 0
  · rw [if_pos hg] at h
    split at h
    next e2 sA hu =>
      injection h with h1 h2
      injection h1 with h3
      obtain ⟨hu0, he2, hsA⟩ := translate0_inv_err _ _ _ hu
      simp only [sys.cuDevicePrimaryCtxRelease] at hu0 he2 hsA
      subst hsA
      rw [← h2, ← h3, he2]
      exact panicStep_record s _ hu0
    next u sA hu => simp at h
  · rw [if_neg hg] at h
    simp at h

/-- Claim C8: teardown-time native failures are fatal.  If the destructor
completes normally then every native call it made succeeded (no error is
ever swallowed); if any native call fails the destructor panics with
exactly the first failing call's nonzero code, that failing call is the
last call issued, and teardown does not continue past it. -/
theorem C8_teardown_failure_fatal (dev : CudaDevice) (s : Driver) :
    (∀ s1, CudaDevice.drop dev s = (DropOutcome.ok, s1) →
       ∀ i, s.calls ≤ i → i < s1.calls → (s.schedule i).getD 0 = 0) ∧
    (∀ e s1, CudaDevice.drop dev s = (DropOutcome.panicked e, s1) →
       e.code ≠ 0 ∧ s.calls < s1.calls ∧ e.code = (s.schedule (s1.calls - 1)).getD 0 ∧
       (∀ i, s.calls ≤ i → i < s1.calls - 1 → (s.schedule i).getD 0 = 0)) := by
  constructor
  · intro s1 h i hi1 hi2
    unfold CudaDevice.drop at h
    split at h
    next e sA hm => simp at h
    next sA hm =>
      split at h
      next e sB hst => simp at h
      next sB hst =>
        have o1 := dropModules_okStep _ _ _ hm
        have o2 := dropStream_okStep _ _ _ hst
        have o3 := dropCtx_okStep _ _ _ h
        obtain ⟨_, _, a⟩ := okStep_trans _ _ _ (okStep_trans _ _ _ o1 o2) o3
        exact a i hi1 hi2
  · intro e s1 h
    unfold CudaDevice.drop at h
    split at h
    next e2 sA hm =>
      injection h with h1 h2
      injection h1 with h3
      subst h3
      subst h2
      obtain ⟨_, l, c, n, a⟩ := dropModules_panicStep _ _ _ _ hm
      exact ⟨n, l, c, a⟩
    next sA hm =>
      split at h
      next e2 sB hst =>
        injection h with h1 h2
        injection h1 with h3
        subst h3
        subst h2
        have o1 := dropModules_okStep _ _ _ hm
        have p2 := dropStream_panicStep _ _ _ _ hst
        obtain ⟨_, l, c, n, a⟩ := okStep_panicStep _ _ _ _ o1 p2
        exact ⟨n, l, c, a⟩
      next sB hst =>
        have o1 := dropModules_okStep _ _ _ hm
        have o2 := dropStream_okStep _ _ _ hst
        have p3 := dropCtx_panicStep _ _ _ _ h
        obtain ⟨_, l, c, n, a⟩ := okStep_panicStep _ _ _ _ (okStep_trans _ _ _ o1 o2) p3
        exact ⟨n, l, c, a⟩

/-- Witness for C8: dropping a device with modules on a driver whose first
call fails with status 5 panics with that code after exactly one call. -/
theorem C8_teardown_failure_fatal_witness :
    ∃ e s1, CudaDevice.drop devMods failFirstDriver = (DropOutcome.panicked e, s1) ∧
      e.code ≠ 0 ∧ failFirstDriver.calls < s1.calls :=
  ⟨_, _, rfl,
   ((C8_teardown_failure_fatal devMods failFirstDriver).2 _ _ rfl).1,
   ((C8_teardown_failure_fatal devMods failFirstDriver).2 _ _ rfl).2.1⟩

theorem malloc_async_trace (size stream : Nat) (s : Driver) :
    (result.malloc_async size stream s).2.trace =
      s.trace ++ [Call.cuMemAllocAsync size stream] := by
  by_cases hc : s.code = 0 <;>
    simp [result.malloc_async, translate, sys.cuMemAllocAsync, CUresult.result, Driver.record, hc]

theorem memset_d8_async_trace (ptr byte size stream : Nat) (s : Driver) :
    (result.memset_d8_async ptr byte size stream s).2.trace =
      s.trace ++ [Call.cuMemsetD8Async ptr byte size stream] := by
  by_cases hc : s.code = 0 <;>
    simp [result.memset_d8_async, translate0, sys.cuMemsetD8Async, CUresult.result,
          Driver.record, hc]

theorem memcpy_htod_async_trace (ptr : Nat) (src : List Nat) (size stream : Nat) (s : Driver) :
    (result.memcpy_htod_async ptr src size stream s).2.trace =
      s.trace ++ [Call.cuMemcpyHtoDAsync ptr size stream] := by
  by_cases hc : s.code = 0 <;>
    simp [result.memcpy_htod_async, translate0, sys.cuMemcpyHtoDAsync, CUresult.result,
          Driver.record, hc]

theorem memcpy_dtoh_async_trace (host ptr size stream : Nat) (s : Driver) :
    (result.memcpy_dtoh_async host ptr size stream s).2.trace =
      s.trace ++ [Call.cuMemcpyDtoHAsync host ptr size stream] := by
  by_cases hc : s.code = 0 <;>
    simp [result.memcpy_dtoh_async, translate0, sys.cuMemcpyDtoHAsync, CUresult.result,
          Driver.record, hc]

theorem stream_synchronize_trace (stream : Nat) (s : Driver) :
    (result.stream.synchronize stream s).2.trace =
      s.trace ++ [Call.cuStreamSynchronize stream] := by
  by_cases hc : s.code = 0 <;>
    simp [result.stream.synchronize, translate0, sys.cuStreamSynchronize, CUresult.result,
          Driver.record, hc]

theorem free_async_trace (ptr stream : Nat) (s : Driver) :
    (result.free_async ptr stream s).2.trace =
      s.trace ++ [Call.cuMemFreeAsync ptr stream] := by
  by_cases hc : s.code = 0 <;>
    simp [result.free_async, translate0, sys.cuMemFreeAsync, CUresult.result, Driver.record, hc]

theorem alloc_no_set_current (dev : CudaDevice) (n : Nat) (s : Driver) :
    (CudaDevice.alloc dev n s).2.trace.filter (fun c => c.isSetCurrent) =
      s.trace.filter (fun c => c.isSetCurrent) := by
  rcases hE : CudaDevice.alloc dev n s with ⟨r, sA⟩
  dsimp only
  unfold CudaDevice.alloc at hE
  split at hE
  next e sB hm =>
    injection hE with h1 h2
    subst h2
    have t1 := malloc_async_trace n dev.cu_stream s
    rw [hm] at t1
    simp only at t1
    simp [t1, List.filter_append, Call.isSetCurrent]
  next p sB hm =>
    have t1 := malloc_async_trace n dev.cu_stream s
    rw [hm] at t1
    simp only at t1
    split at hE
    next e sC hms =>
      injection hE with h1 h2
      subst h2
      have t2 := memset_d8_async_trace p 0 n dev.cu_stream sB
      rw [hms] at t2
      simp only at t2
      simp [t2, t1, List.filter_append, Call.isSetCurrent]
    next u sC hms =>
      injection hE with h1 h2
      subst h2
      have t2 := memset_d8_async_trace p 0 n dev.cu_stream sB
      rw [hms] at t2
      simp only at t2
      simp [t2, t1, List.filter_append, Call.isSetCurrent]

theorem take_no_set_current (dev : CudaDevice) (v : List Nat) (s : Driver) :
    (CudaDevice.take dev v s).2.trace.filter (fun c => c.isSetCurrent) =
      s.trace.filter (fun c => c.isSetCurrent) := by
  rcases hE : CudaDevice.take dev v s with ⟨r, sA⟩
  dsimp only
  unfold CudaDevice.take at hE
  split at hE
  next e sB hm =>
    injection hE with h1 h2
    subst h2
    have t1 := malloc_async_trace v.length dev.cu_stream s
    rw [hm] at t1
    simp only at t1
    simp [t1, List.filter_append, Call.isSetCurrent]
  next p sB hm =>
    have t1 := malloc_async_trace v.length dev.cu_stream s
    rw [hm] at t1
    simp only at t1
    split at hE
    next e sC hms =>
      injection hE with h1 h2
      subst h2
      have t2 := memcpy_htod_async_trace p v v.length dev.cu_stream sB
      rw [hms] at t2
      simp only at t2
      simp [t2, t1, List.filter_append, Call.isSetCurrent]
    next u sC hms =>
      injection hE with h1 h2
      subst h2
      have t2 := memcpy_htod_async_trace p v v.length dev.cu_stream sB
      rw [hms] at t2
      simp only at t2
      simp [t2, t1, List.filter_append, Call.isSetCurrent]

theorem synchronize_no_set_current (dev : CudaDevice) (s : Driver) :
    (CudaDevice.synchronize dev s).2.trace.filter (fun c => c.isSetCurrent) =
      s.trace.filter (fun c => c.isSetCurrent) := by
  unfold CudaDevice.synchronize
  rw [stream_synchronize_trace]
  simp [List.filter_append, Call.isSetCurrent]

theorem release_no_set_current (dev : CudaDevice) (t : InCudaMemory) (s : Driver) :
    (CudaDevice.release dev t s).2.trace.filter (fun c => c.isSetCurrent) =
      s.trace.filter (fun c => c.isSetCurrent) := by
  rcases hE : CudaDevice.release dev t s with ⟨r, sA⟩
  dsimp only
  unfold CudaDevice.release at hE
  simp only [Driver.hostAlloc] at hE
  split at hE
  next e sB hd =>
    injection hE with h1 h2
    subst h2
    have t1 := memcpy_dtoh_async_trace s.nextHost t.cu_device_ptr t.size dev.cu_stream
      { s with nextHost := s.nextHost + 1,
               mem := { s.mem with host := assocSet s.mem.host s.nextHost (t.host_data.getD (List.replicate t.size 0)) } }
    rw [hd] at t1
    simp only at t1
    simp [t1, List.filter_append, Call.isSetCurrent]
  next u sB hd =>
    have t1 := memcpy_dtoh_async_trace s.nextHost t.cu_device_ptr t.size dev.cu_stream
      { s with nextHost := s.nextHost + 1,
               mem := { s.mem with host := assocSet s.mem.host s.nextHost (t.host_data.getD (List.replicate t.size 0)) } }
    rw [hd] at t1
    simp only at t1
    split at hE
    next e sC hy =>
      injection hE with h1 h2
      subst h2
      have t2 := synchronize_no_set_current dev sB
      rw [hy] at t2
      simp only at t2
      rw [t2, t1]
      simp [List.filter_append, Call.isSetCurrent]
    next u2 sC hy =>
      have t2 := synchronize_no_set_current dev sB
      rw [hy] at t2
      simp only at t2
      split at hE
      next e sD hf =>
        injection hE with h1 h2
        subst h2
        have t3 := free_async_trace t.cu_device_ptr dev.cu_stream sC
        rw [hf] at t3
        simp only at t3
        rw [t3]
        simp only [List.filter_append]
        rw [t2, t1]
        simp [List.filter_append, Call.isSetCurrent]
      next u3 sD hf =>
        injection hE with h1 h2
        subst h2
        have t3 := free_async_trace t.cu_device_ptr dev.cu_stream sC
        rw [hf] at t3
        simp only at t3
        rw [t3]
        simp only [List.filter_append]
        rw [t2, t1]
        simp [List.filter_append, Call.isSetCurrent]

/-- Inversion of a successful `CudaDevice::new`: driver initialization,
device lookup, context retain, context activation and stream creation, in
that order. -/
theorem new_inv_ok (ordinal : Nat) (s sN : Driver) (d : CudaDevice)
    (h : CudaDevice.new ordinal s = (Except.ok d, sN)) :
    d = ⟨Int.ofNat ordinal, s.nextPtr, s.nextPtr + 1, []⟩ ∧
    sN.trace = s.trace ++ [Call.cuInit, Call.cuDeviceGet (Int.ofNat ordinal),
                           Call.cuDevicePrimaryCtxRetain (Int.ofNat ordinal),
                           Call.cuCtxSetCurrent s.nextPtr, Call.cuStreamCreate] := by
  unfold CudaDevice.new at h
  split at h
  next e sA hI => simp at h
  next u sA hI =>
    split at h
    next e sB hG => simp at h
    next dv sB hG =>
      split at h
      next e sC hR => simp at h
      next ctx sC hR =>
        split at h
        next e sD hS => simp at h
        next u2 sD hS =>
          split at h
          next e sE hC => simp at h
          next st sE hC =>
            injection h with h1 h2
            injection h1 with h3
            obtain ⟨c0, hsA⟩ := translate0_inv_ok _ _ hI
            simp only [sys.cuInit] at c0 hsA
            obtain ⟨c1, hdv, hsB⟩ := translate_inv_ok _ _ _ hG
            simp only [sys.cuDeviceGet] at c1 hdv hsB
            obtain ⟨c2, hctx, hsC⟩ := translate_inv_ok _ _ _ hR
            simp only [sys.cuDevicePrimaryCtxRetain] at c2
            simp only [sys.cuDevicePrimaryCtxRetain, c2, if_pos] at hctx hsC
            obtain ⟨c3, hsD⟩ := translate0_inv_ok _ _ hS
            simp only [sys.cuCtxSetCurrent] at c3 hsD
            obtain ⟨c4, hst, hsE⟩ := translate_inv_ok _ _ _ hC
            simp only [sys.cuStreamCreate] at c4
            simp only [sys.cuStreamCreate, c4, if_pos] at hst hsE
            subst hsA hsB hsC hsD hsE hdv hctx hst
            constructor
            · rw [← h3]
              simp [Driver.record]
            · rw [← h2]
              simp [Driver.record]

/-- Counterexample to C9 as stated: at a concrete state, the public
operations alloc, take, release and synchronize each issue native calls
yet none of them performs a context activation (no `cuCtxSetCurrent`
appears in their recorded call sequences). -/
theorem C9_counterexample_no_activation_in_ops :
    (CudaDevice.alloc dev0 4 okDriver).2.trace.all (fun c => !c.isSetCurrent) = true ∧
    (CudaDevice.take dev0 [9] okDriver).2.trace.all (fun c => !c.isSetCurrent) = true ∧
    (CudaDevice.release dev0 t0 okDriver).2.trace.all (fun c => !c.isSetCurrent) = true ∧
    (CudaDevice.synchronize dev0 okDriver).2.trace.all (fun c => !c.isSetCurrent) = true ∧
    (CudaDevice.alloc dev0 4 okDriver).2.trace ≠ [] := by
  decide

/-- Amended C9: context activation is an explicit step performed exactly
once, during Device Handle construction (after the context retain and
before stream creation); the public operations alloc, take, release and
synchronize perform no context activation and rely on the ambient current
context set at construction. -/
theorem C9_amended_activation_only_in_new (ordinal : Nat) (dev : CudaDevice) (n : Nat)
    (v : List Nat) (t : InCudaMemory) (s : Driver) :
    (∀ d sN, CudaDevice.new ordinal s = (Except.ok d, sN) →
       sN.trace = s.trace ++ [Call.cuInit, Call.cuDeviceGet (Int.ofNat ordinal),
                              Call.cuDevicePrimaryCtxRetain (Int.ofNat ordinal),
                              Call.cuCtxSetCurrent s.nextPtr, Call.cuStreamCreate]) ∧
    ((CudaDevice.alloc dev n s).2.trace.filter (fun c => c.isSetCurrent) =
       s.trace.filter (fun c => c.isSetCurrent)) ∧
    ((CudaDevice.take dev v s).2.trace.filter (fun c => c.isSetCurrent) =
       s.trace.filter (fun c => c.isSetCurrent)) ∧
    ((CudaDevice.release dev t s).2.trace.filter (fun c => c.isSetCurrent) =
       s.trace.filter (fun c => c.isSetCurrent)) ∧
    ((CudaDevice.synchronize dev s).2.trace.filter (fun c => c.isSetCurrent) =
       s.trace.filter (fun c => c.isSetCurrent)) :=
  ⟨fun d sN h => (new_inv_ok ordinal s sN d h).2,
   alloc_no_set_current dev n s,
   take_no_set_current dev v s,
   release_no_set_current dev t s,
   synchronize_no_set_current dev s⟩

/-- Witness for the amended C9: a concrete successful construction records
exactly one context activation, between context retain and stream
creation. -/
theorem C9_amended_activation_only_in_new_witness :
    ∃ d sN, CudaDevice.new 0 okDriver = (Except.ok d, sN) ∧
      sN.trace = okDriver.trace ++
        [Call.cuInit, Call.cuDeviceGet (Int.ofNat 0),
         Call.cuDevicePrimaryCtxRetain (Int.ofNat 0),
         Call.cuCtxSetCurrent okDriver.nextPtr, Call.cuStreamCreate] :=
  ⟨_, _, rfl,
   (C9_amended_activation_only_in_new 0 dev0 0 [] t0 okDriver).1 _ _ rfl⟩

/-- Claim C1: the single conversion function `CUresult::result` yields an
ok-result exactly when the code is the success (zero) code, and for every
other code yields a typed failure wrapping exactly that original code. -/
theorem C1_result_conversion (c : CUresult) :
    (CUresult.result c = Except.ok () ↔ c = 0) ∧
    (CUresult.result c = Except.error ⟨c⟩ ↔ c ≠ 0) := by
  constructor
  · constructor
    · intro h
      by_contra hc
      simp [CUresult.result, hc] at h
    · intro h
      simp [CUresult.result, h]
  · constructor
    · intro h hc
      subst hc
      simp [CUresult.result] at h
    · intro h
      simp [CUresult.result, h]

/-- Witness for C1 at concrete codes: the success code yields ok and the
code 3 yields a failure wrapping 3. -/
theorem C1_result_conversion_witness :
    (CUresult.result 0 = Except.ok () ↔ (0 : CUresult) = 0) ∧
    (CUresult.result 3 = Except.error ⟨3⟩ ↔ (3 : CUresult) ≠ 0) :=
  ⟨(C1_result_conversion 0).1, (C1_result_conversion 3).2⟩

end Cudas
